import Mathlib

/-!
Shallow embedding of the animation pipeline of `plotting.py` from the
`molecular_dynamics_argon` repository, together with proofs checking the
natural-language specification of that module against the code.

Conventions of the embedding:
* Python floats are modelled as exact rationals (`ℚ`); `int(x)` applied to the
  non-negative quotient `i*(num_tsteps-1)/(num_frames-1)` is modelled as
  natural-number (floor) division.
* Fallible Python operations (indexing past the end of an array, division by
  zero, reading a missing file) are modelled in the `Except PyErr` monad,
  where `PyErr` mirrors the Python exception kind that the operation raises.
* A matplotlib axis is modelled as the data that the plotting calls put on it:
  the list of single-point marker calls (with their style string), the list of
  polyline calls, and the final axis limits.
* The external `simulate` module (trajectory provider) is not part of this
  repository's plotting core; its pairwise minimum-image displacement output
  `rel_pos` is passed in as a function argument `relpos` with
  `relpos j i k = rel_pos[j, i, k]`.
-/

namespace MDArgon

/-- Python exception kinds raised by the embedded code paths. -/
inductive PyErr where
  | zeroDivisionError : PyErr
  | indexError : PyErr
  | fileNotFoundError (path : String) : PyErr
deriving DecidableEq, Repr

/-- Structural effectful map over a list in the `Except` monad: the Python
`for` loop body `f` is run left to right and the first raised exception
aborts the whole loop. -/
def mapE (f : α → Except PyErr β) : List α → Except PyErr (List β)
  | [] => .ok []
  | a :: l => do
    let b ← f a
    let bs ← mapE f l
    pure (b :: bs)

theorem mapE_ok {f : α → Except PyErr β} {g : α → β} :
    ∀ (l : List α), (∀ a ∈ l, f a = .ok (g a)) → mapE f l = .ok (l.map g)
  | [], _ => rfl
  | a :: l, h => by
    have ha := h a (List.mem_cons_self a l)
    have hl := mapE_ok (f := f) (g := g) l (fun x hx => h x (List.mem_cons_of_mem a hx))
    simp [mapE, ha, hl]
    rfl

theorem mapE_error_head {f : α → Except PyErr β} {a : α} {l : List α} {e : PyErr}
    (h : f a = .error e) : mapE f (a :: l) = .error e := by
  simp [mapE, h]
  rfl

/-! ### Frame Sampler (`plotting.py` lines 32 and 86)

`save_frame = [int(i*(num_tsteps-1)/(num_frames-1)) for i in range(num_frames-1)]
              + [int(num_tsteps)-1]`

The comprehension body divides by `num_frames - 1`; in Python this raises
`ZeroDivisionError` when `num_frames - 1 == 0` **and the body is evaluated**,
i.e. only when `range(num_frames-1)` is non-empty. -/

/-- One evaluation of the comprehension body `int(i*(num_tsteps-1)/(num_frames-1))`. -/
def sampleTerm (i num_tsteps num_frames : Nat) : Except PyErr Nat :=
  if num_frames - 1 = 0 then .error .zeroDivisionError
  else .ok (i * (num_tsteps - 1) / (num_frames - 1))

/-- The `save_frame` computation of `GIF_2D` (`plotting.py` line 32). -/
def save_frame_2D (num_frames num_tsteps : Nat) : Except PyErr (List Nat) := do
  let l ← mapE (fun i => sampleTerm i num_tsteps num_frames) (List.range (num_frames - 1))
  pure (l ++ [num_tsteps - 1])

/-- The `save_frame` computation of `GIF_3D` (`plotting.py` line 86), textually
identical to the one in `GIF_2D`. -/
def save_frame_3D (num_frames num_tsteps : Nat) : Except PyErr (List Nat) := do
  let l ← mapE (fun i => sampleTerm i num_tsteps num_frames) (List.range (num_frames - 1))
  pure (l ++ [num_tsteps - 1])

/-- The value the sampler computes when no exception is raised. -/
def samplePlan (num_frames num_tsteps : Nat) : List Nat :=
  (List.range (num_frames - 1)).map (fun i => i * (num_tsteps - 1) / (num_frames - 1))
    ++ [num_tsteps - 1]

theorem save_frame_2D_eq (num_frames num_tsteps : Nat) (hF : 2 ≤ num_frames) :
    save_frame_2D num_frames num_tsteps = .ok (samplePlan num_frames num_tsteps) := by
  have h1 : num_frames - 1 ≠ 0 := by omega
  have : mapE (fun i => sampleTerm i num_tsteps num_frames) (List.range (num_frames - 1))
      = .ok ((List.range (num_frames - 1)).map
          (fun i => i * (num_tsteps - 1) / (num_frames - 1))) :=
    mapE_ok _ (fun a _ => by simp [sampleTerm, h1])
  simp [save_frame_2D, this, samplePlan]

theorem save_frame_3D_eq (num_frames num_tsteps : Nat) (hF : 2 ≤ num_frames) :
    save_frame_3D num_frames num_tsteps = .ok (samplePlan num_frames num_tsteps) := by
  have h1 : num_frames - 1 ≠ 0 := by omega
  have : mapE (fun i => sampleTerm i num_tsteps num_frames) (List.range (num_frames - 1))
      = .ok ((List.range (num_frames - 1)).map
          (fun i => i * (num_tsteps - 1) / (num_frames - 1))) :=
    mapE_ok _ (fun a _ => by simp [sampleTerm, h1])
  simp [save_frame_3D, this, samplePlan]

theorem samplePlan_length (num_frames num_tsteps : Nat) (hF : 1 ≤ num_frames) :
    (samplePlan num_frames num_tsteps).length = num_frames := by
  simp [samplePlan]
  omega

theorem samplePlan_mem_le (num_frames num_tsteps : Nat) (hF : 2 ≤ num_frames) :
    ∀ x ∈ samplePlan num_frames num_tsteps, x ≤ num_tsteps - 1 := by
  intro x hx
  rcases List.mem_append.1 hx with h | h
  · obtain ⟨i, hi, rfl⟩ := List.mem_map.1 h
    have hi' : i ≤ num_frames - 1 := le_of_lt (List.mem_range.1 hi)
    have hpos : 0 < num_frames - 1 := by omega
    calc i * (num_tsteps - 1) / (num_frames - 1)
        ≤ (num_frames - 1) * (num_tsteps - 1) / (num_frames - 1) :=
          Nat.div_le_div_right (Nat.mul_le_mul_right _ hi')
      _ = num_tsteps - 1 := Nat.mul_div_cancel_left _ hpos
  · simp at h
    omega

theorem samplePlan_sorted (num_frames num_tsteps : Nat) (hF : 2 ≤ num_frames) :
    List.Sorted (· ≤ ·) (samplePlan num_frames num_tsteps) := by
  rw [samplePlan]
  refine List.pairwise_append.2 ⟨?_, List.sorted_singleton _, ?_⟩
  · rw [List.pairwise_map]
    exact (List.pairwise_lt_range _).imp
      (fun h => Nat.div_le_div_right (Nat.mul_le_mul_right _ (le_of_lt h)))
  · intro a ha b hb
    simp at hb
    subst hb
    exact samplePlan_mem_le num_frames num_tsteps hF a (List.mem_append.2 (Or.inl ha))

theorem samplePlan_getElem (num_frames num_tsteps i : Nat) (hi : i < num_frames - 1) :
    (samplePlan num_frames num_tsteps)[i]? =
      some (i * (num_tsteps - 1) / (num_frames - 1)) := by
  have hlen : i < ((List.range (num_frames - 1)).map
      (fun i => i * (num_tsteps - 1) / (num_frames - 1))).length := by
    simpa using hi
  rw [samplePlan, List.getElem?_append, if_pos hlen, List.getElem?_map, List.getElem?_range hi]
  rfl

theorem samplePlan_getLast (num_frames num_tsteps : Nat) :
    (samplePlan num_frames num_tsteps).getLast? = some (num_tsteps - 1) :=
  List.getLast?_concat _

/-- C1: for every `num_tsteps ≥ 1` and `num_frames ≥ 2` the frame sampler
raises no exception and returns exactly `num_frames` timestep indices, each at
most `num_tsteps - 1`, monotonically non-decreasing, with the entry at every
position `i < num_frames - 1` equal to `⌊i·(num_tsteps-1)/(num_frames-1)⌋`
and the last entry equal to `num_tsteps - 1`; in particular the list is
produced (with repetitions) even when `num_frames > num_tsteps`. -/
theorem frame_sampler_spec (num_tsteps num_frames : Nat)
    (hT : 1 ≤ num_tsteps) (hF : 2 ≤ num_frames) :
    save_frame_2D num_frames num_tsteps = .ok (samplePlan num_frames num_tsteps) ∧
    (samplePlan num_frames num_tsteps).length = num_frames ∧
    (∀ x ∈ samplePlan num_frames num_tsteps, x ≤ num_tsteps - 1) ∧
    List.Sorted (· ≤ ·) (samplePlan num_frames num_tsteps) ∧
    (∀ i, i < num_frames - 1 → (samplePlan num_frames num_tsteps)[i]? =
      some (i * (num_tsteps - 1) / (num_frames - 1))) ∧
    (samplePlan num_frames num_tsteps).getLast? = some (num_tsteps - 1) :=
  ⟨save_frame_2D_eq _ _ hF,
   samplePlan_length _ _ (by omega),
   samplePlan_mem_le _ _ hF,
   samplePlan_sorted _ _ hF,
   fun i hi => samplePlan_getElem _ _ i hi,
   samplePlan_getLast _ _⟩

/-- C1 witness: the end-to-end example of the spec (101 timesteps, 5 frames)
and a case with `num_frames > num_tsteps` (7 frames from 3 timesteps). -/
theorem frame_sampler_spec_witness :
    (1 ≤ 101 ∧ 2 ≤ 5 ∧ save_frame_2D 5 101 = .ok (samplePlan 5 101) ∧
      samplePlan 5 101 = [0, 25, 50, 75, 100]) ∧
    (1 ≤ 3 ∧ 2 ≤ 7 ∧ save_frame_2D 7 3 = .ok (samplePlan 7 3) ∧
      samplePlan 7 3 = [0, 0, 0, 1, 1, 1, 2]) :=
  ⟨⟨by decide, by decide, (frame_sampler_spec 101 5 (by decide) (by decide)).1, by decide⟩,
   ⟨by decide, by decide, (frame_sampler_spec 3 7 (by decide) (by decide)).1, by decide⟩⟩

/-! ### Frame filenames (`plotting.py` lines 48, 56, 102, 110)

Frames are stored as `"tmp-plot/pair_int_2D{:05d}.png".format(f)` (resp. `3D`),
where `{:05d}` renders `f` in decimal, left-padded with zeros to width 5. -/

/-- Decimal digit character. -/
def digitChar (d : Nat) : Char :=
  match d with
  | 0 => '0' | 1 => '1' | 2 => '2' | 3 => '3' | 4 => '4'
  | 5 => '5' | 6 => '6' | 7 => '7' | 8 => '8' | _ => '9'

/-- Big-endian decimal digits of a positive number, structurally recursive on a
fuel bound so that it evaluates by `rfl` and `decide`. -/
def decAux : Nat → Nat → List Char
  | 0, _ => []
  | _ + 1, 0 => []
  | fuel + 1, n + 1 => decAux fuel ((n + 1) / 10) ++ [digitChar ((n + 1) % 10)]

/-- Decimal representation of a natural number, as Python's `str`/`{:d}`. -/
def decRepr (n : Nat) : List Char :=
  if n = 0 then ['0'] else decAux n n

/-- Python's `"{:05d}".format(n)`: decimal digits of `n` left-padded with `'0'`
to at least five characters. -/
def pad5 (n : Nat) : String :=
  ⟨List.replicate (5 - (decRepr n).length) '0' ++ decRepr n⟩

/-- The 2D frame filename `"tmp-plot/pair_int_2D{:05d}.png".format(f)`. -/
def fname2D (f : Nat) : String := "tmp-plot/pair_int_2D" ++ pad5 f ++ ".png"

/-- The 3D frame filename `"tmp-plot/pair_int_3D{:05d}.png".format(f)`. -/
def fname3D (f : Nat) : String := "tmp-plot/pair_int_3D" ++ pad5 f ++ ".png"

/-- Decimal decoding of a character list, ignoring leading zeros; used to show
that the zero-padded filenames are collision-free. -/
def readNat (cs : List Char) : Nat :=
  cs.foldl (fun a c => 10 * a + (c.toNat - 48)) 0

theorem readNat_append (l1 l2 : List Char) :
    readNat (l1 ++ l2) = (l1 ++ l2).foldl (fun a c => 10 * a + (c.toNat - 48)) 0 := rfl

theorem foldl_digit_append (a : Nat) (l : List Char) (c : Char) :
    (l ++ [c]).foldl (fun a c => 10 * a + (c.toNat - 48)) a =
      10 * (l.foldl (fun a c => 10 * a + (c.toNat - 48)) a) + (c.toNat - 48) := by
  rw [List.foldl_append]
  rfl

theorem digitChar_decode (d : Nat) (hd : d < 10) : (digitChar d).toNat - 48 = d := by
  interval_cases d <;> rfl

theorem decAux_zero (fuel : Nat) : decAux fuel 0 = [] := by
  cases fuel <;> rfl

theorem foldl_decAux (fuel n a : Nat) (hn : n ≤ fuel) :
    (decAux fuel n).foldl (fun a c => 10 * a + (c.toNat - 48)) a =
      if n = 0 then a else a * 10 ^ (decAux fuel n).length + n := by
  induction fuel generalizing n a with
  | zero =>
    have : n = 0 := Nat.le_zero.1 hn
    subst this
    simp [decAux]
  | succ fuel ih =>
    match n with
    | 0 => simp [decAux_zero]
    | m + 1 =>
      have hdiv : (m + 1) / 10 ≤ fuel := by
        have := Nat.div_lt_self (Nat.succ_pos m) (by omega : 1 < 10)
        omega
      simp only [decAux]
      rw [foldl_digit_append, ih _ a hdiv,
        digitChar_decode _ (Nat.mod_lt _ (by omega)), if_neg (Nat.succ_ne_zero m)]
      by_cases h0 : (m + 1) / 10 = 0
      · have hlt : m + 1 < 10 := (Nat.div_eq_zero_iff (by omega)).1 h0
        rw [if_pos h0, h0, decAux_zero, Nat.mod_eq_of_lt hlt]
        simp
        omega
      · rw [if_neg h0, List.length_append, List.length_singleton, pow_succ]
        have hdm := Nat.div_add_mod (m + 1) 10
        have hswap : a * (10 ^ (decAux fuel ((m + 1) / 10)).length * 10)
            = 10 * (a * 10 ^ (decAux fuel ((m + 1) / 10)).length) := by ring
        rw [hswap]
        omega

theorem readNat_decRepr (n : Nat) : readNat (decRepr n) = n := by
  by_cases h0 : n = 0
  · subst h0
    rfl
  · rw [decRepr, if_neg h0, readNat, foldl_decAux n n 0 le_rfl, if_neg h0]
    simp

theorem foldl_zeros (k : Nat) :
    (List.replicate k '0').foldl (fun a c => 10 * a + (c.toNat - 48)) 0 = 0 := by
  induction k with
  | zero => rfl
  | succ k ih =>
    rw [List.replicate_succ, List.foldl_cons]
    exact ih

theorem readNat_pad5 (n : Nat) : readNat (pad5 n).data = n := by
  show readNat (List.replicate (5 - (decRepr n).length) '0' ++ decRepr n) = n
  rw [readNat, List.foldl_append, foldl_zeros]
  exact readNat_decRepr n

theorem pad5_injective : Function.Injective pad5 := by
  intro m n h
  have : readNat (pad5 m).data = readNat (pad5 n).data := by rw [h]
  rwa [readNat_pad5, readNat_pad5] at this

theorem fname2D_injective : Function.Injective fname2D := by
  intro m n h
  apply pad5_injective
  have hd : ("tmp-plot/pair_int_2D".data ++ ((pad5 m).data ++ ".png".data))
      = ("tmp-plot/pair_int_2D".data ++ ((pad5 n).data ++ ".png".data)) := by
    have := congrArg String.data h
    simpa [fname2D, String.data_append] using this
  have h2 := List.append_cancel_left hd
  have h3 := List.append_cancel_right h2
  calc pad5 m = (⟨(pad5 m).data⟩ : String) := rfl
    _ = (⟨(pad5 n).data⟩ : String) := by rw [h3]
    _ = pad5 n := rfl

theorem fname3D_injective : Function.Injective fname3D := by
  intro m n h
  apply pad5_injective
  have hd : ("tmp-plot/pair_int_3D".data ++ ((pad5 m).data ++ ".png".data))
      = ("tmp-plot/pair_int_3D".data ++ ((pad5 n).data ++ ".png".data)) := by
    have := congrArg String.data h
    simpa [fname3D, String.data_append] using this
  have h2 := List.append_cancel_left hd
  have h3 := List.append_cancel_right h2
  calc pad5 m = (⟨(pad5 m).data⟩ : String) := rfl
    _ = (⟨(pad5 n).data⟩ : String) := by rw [h3]
    _ = pad5 n := rfl

/-! ### Frame Sequencer and Animation Assembler (`plotting.py` lines 42-58, 96-112)

`GIF_2D` iterates `for f, t in enumerate(save_frame)` and saves one image per
plan entry under `fname2D f`; it then opens an `imageio` writer with
`duration=3/num_frames` (a `ZeroDivisionError` if `num_frames == 0`) and
appends, in order, the image read back from `fname2D f` for
`f in range(len(save_frame))`. -/

/-- The writer's per-frame display duration `3/num_frames`
(`plotting.py` lines 55 and 109). -/
def duration (num_frames : Nat) : Except PyErr ℚ :=
  if num_frames = 0 then .error .zeroDivisionError
  else .ok (3 / (num_frames : ℚ))

/-- Files written by the frame loop of `GIF_2D` (lines 42-48): one per plan
entry, named by the enumeration index `f`, depicting timestep `t`. -/
def GIF_2D_files (num_frames num_tsteps : Nat) : Except PyErr (List (String × Nat)) := do
  let plan ← save_frame_2D num_frames num_tsteps
  pure (plan.enum.map (fun ft => (fname2D ft.1, ft.2)))

/-- Filenames the assembler of `GIF_2D` reads, in reading order (line 56). -/
def GIF_2D_read (num_frames num_tsteps : Nat) : Except PyErr (List String) := do
  let plan ← save_frame_2D num_frames num_tsteps
  pure ((List.range plan.length).map fname2D)

/-- The assembled 2D animation: each appended frame with its display
duration (lines 55-58). -/
def GIF_2D_anim (num_frames num_tsteps : Nat) : Except PyErr (List (String × ℚ)) := do
  let plan ← save_frame_2D num_frames num_tsteps
  let d ← duration num_frames
  pure ((List.range plan.length).map (fun f => (fname2D f, d)))

/-- Files written by the frame loop of `GIF_3D` (lines 96-102). -/
def GIF_3D_files (num_frames num_tsteps : Nat) : Except PyErr (List (String × Nat)) := do
  let plan ← save_frame_3D num_frames num_tsteps
  pure (plan.enum.map (fun ft => (fname3D ft.1, ft.2)))

/-- Filenames the assembler of `GIF_3D` reads, in reading order (line 110). -/
def GIF_3D_read (num_frames num_tsteps : Nat) : Except PyErr (List String) := do
  let plan ← save_frame_3D num_frames num_tsteps
  pure ((List.range plan.length).map fname3D)

/-- The assembled 3D animation (lines 109-112). -/
def GIF_3D_anim (num_frames num_tsteps : Nat) : Except PyErr (List (String × ℚ)) := do
  let plan ← save_frame_3D num_frames num_tsteps
  let d ← duration num_frames
  pure ((List.range plan.length).map (fun f => (fname3D f, d)))

/-- Names of the files written by the 2D frame loop. -/
def writtenNames2D (num_frames num_tsteps : Nat) : Except PyErr (List String) :=
  (GIF_2D_files num_frames num_tsteps).map (List.map Prod.fst)

/-- C2 counterexample: calling the 2D pipeline with `num_frames = 1` does not
fail. `range(num_frames-1)` is empty, so the division by `num_frames-1` in the
sampler comprehension is never evaluated: the sampler returns the single index
`num_tsteps-1 = 9`, one frame file is written, and the animation is assembled
with per-frame duration `3/1 = 3` — no exception of any kind is raised. -/
theorem num_frames_one_not_an_error :
    save_frame_2D 1 10 = .ok [9] ∧
    GIF_2D_files 1 10 = .ok [("tmp-plot/pair_int_2D00000.png", 9)] ∧
    GIF_2D_anim 1 10 = .ok [("tmp-plot/pair_int_2D00000.png", 3 / (1 : ℚ))] :=
  ⟨rfl, rfl, rfl⟩

/-- C2 amended: for every `num_tsteps ≥ 1`, calling the pipeline with
`num_frames = 1` silently produces exactly one frame depicting the final
timestep `num_tsteps - 1` (the sampler's comprehension ranges over
`range(0) = []`, so its division by zero is never evaluated), and the
animation is assembled from that single frame with duration `3/1`. -/
theorem num_frames_one_single_frame (num_tsteps : Nat) (hT : 1 ≤ num_tsteps) :
    save_frame_2D 1 num_tsteps = .ok [num_tsteps - 1] ∧
    GIF_2D_files 1 num_tsteps = .ok [(fname2D 0, num_tsteps - 1)] ∧
    GIF_2D_anim 1 num_tsteps = .ok [(fname2D 0, 3 / (1 : ℚ))] :=
  ⟨rfl, rfl, rfl⟩

/-- C2 amended witness: the concrete instance `num_tsteps = 10`. -/
theorem num_frames_one_single_frame_witness :
    1 ≤ 10 ∧ save_frame_2D 1 10 = .ok [10 - 1] :=
  ⟨by decide, (num_frames_one_single_frame 10 (by decide)).1⟩

theorem GIF_2D_read_eq (num_frames num_tsteps : Nat) (hF : 2 ≤ num_frames) :
    GIF_2D_read num_frames num_tsteps = .ok ((List.range num_frames).map fname2D) := by
  rw [GIF_2D_read, save_frame_2D_eq _ _ hF]
  simp [samplePlan_length num_frames num_tsteps (by omega)]

theorem writtenNames2D_eq (num_frames num_tsteps : Nat) (hF : 2 ≤ num_frames) :
    writtenNames2D num_frames num_tsteps = .ok ((List.range num_frames).map fname2D) := by
  rw [writtenNames2D, GIF_2D_files, save_frame_2D_eq _ _ hF]
  show Except.ok (((samplePlan num_frames num_tsteps).enum.map
    (fun ft => (fname2D ft.1, ft.2))).map Prod.fst) = _
  rw [List.map_map]
  have : (Prod.fst ∘ fun ft : Nat × Nat => (fname2D ft.1, ft.2))
      = fname2D ∘ Prod.fst := rfl
  rw [this, ← List.map_map, List.enum_map_fst,
    samplePlan_length num_frames num_tsteps (by omega)]

/-- C5: for every run with `num_frames ≥ 2`, the frame loop writes exactly one
file per plan entry, named by the fixed prefix-and-tag string with the
zero-padded sequence index, the index running `0, 1, ..., num_frames-1` in
steps of one independently of the sampled timesteps; the assembler reads back
exactly that list of filenames, each exactly once (the name list has no
duplicates), in ascending sequence-index order. -/
theorem sequencer_assembler_roundtrip (num_frames num_tsteps : Nat)
    (hF : 2 ≤ num_frames) (hT : 1 ≤ num_tsteps) :
    writtenNames2D num_frames num_tsteps = .ok ((List.range num_frames).map fname2D) ∧
    GIF_2D_read num_frames num_tsteps = .ok ((List.range num_frames).map fname2D) ∧
    (∀ i, i < num_frames →
      ((List.range num_frames).map fname2D)[i]? = some (fname2D i)) ∧
    (∀ f, fname2D f = "tmp-plot/pair_int_2D" ++ pad5 f ++ ".png") ∧
    ((List.range num_frames).map fname2D).Nodup ∧
    List.Pairwise (· < ·) (List.range num_frames) :=
  ⟨writtenNames2D_eq _ _ hF,
   GIF_2D_read_eq _ _ hF,
   fun i hi => by
     rw [List.getElem?_map, List.getElem?_range hi]
     rfl,
   fun _ => rfl,
   (List.nodup_range num_frames).map fname2D_injective,
   List.pairwise_lt_range num_frames⟩

/-- C5 witness: five frames from 101 timesteps. -/
theorem sequencer_assembler_roundtrip_witness :
    2 ≤ 5 ∧ 1 ≤ 101 ∧ writtenNames2D 5 101 = .ok ((List.range 5).map fname2D) ∧
    (List.range 5).map fname2D =
      ["tmp-plot/pair_int_2D00000.png", "tmp-plot/pair_int_2D00001.png",
       "tmp-plot/pair_int_2D00002.png", "tmp-plot/pair_int_2D00003.png",
       "tmp-plot/pair_int_2D00004.png"] :=
  ⟨by decide, by decide,
   (sequencer_assembler_roundtrip 5 101 (by decide) (by decide)).1, rfl⟩

theorem duration_eq (num_frames : Nat) (hF : 2 ≤ num_frames) :
    duration num_frames = .ok (3 / (num_frames : ℚ)) := by
  rw [duration, if_neg (by omega)]

theorem GIF_2D_anim_eq (num_frames num_tsteps : Nat) (hF : 2 ≤ num_frames) :
    GIF_2D_anim num_frames num_tsteps =
      .ok ((List.range num_frames).map (fun f => (fname2D f, 3 / (num_frames : ℚ)))) := by
  rw [GIF_2D_anim, save_frame_2D_eq _ _ hF]
  show (duration num_frames).bind _ = _
  rw [duration_eq _ hF]
  show Except.ok ((List.range (samplePlan num_frames num_tsteps).length).map _) = _
  rw [samplePlan_length num_frames num_tsteps (by omega)]

theorem GIF_3D_anim_eq (num_frames num_tsteps : Nat) (hF : 2 ≤ num_frames) :
    GIF_3D_anim num_frames num_tsteps =
      .ok ((List.range num_frames).map (fun f => (fname3D f, 3 / (num_frames : ℚ)))) := by
  rw [GIF_3D_anim, save_frame_3D_eq _ _ hF]
  show (duration num_frames).bind _ = _
  rw [duration_eq _ hF]
  show Except.ok ((List.range (samplePlan num_frames num_tsteps).length).map _) = _
  rw [samplePlan_length num_frames num_tsteps (by omega)]

/-- C7: for every `num_frames ≥ 2`, the assembled animation holds every frame
for the same display duration `3 / num_frames`; for `num_frames = 10` that
duration is `0.3`. -/
theorem per_frame_duration (num_frames num_tsteps : Nat)
    (hF : 2 ≤ num_frames) (hT : 1 ≤ num_tsteps) :
    duration num_frames = .ok (3 / (num_frames : ℚ)) ∧
    GIF_2D_anim num_frames num_tsteps =
      .ok ((List.range num_frames).map (fun f => (fname2D f, 3 / (num_frames : ℚ)))) ∧
    duration 10 = .ok (0.3 : ℚ) := by
  refine ⟨duration_eq _ hF, GIF_2D_anim_eq _ _ hF, ?_⟩
  rw [duration, if_neg (by norm_num)]
  norm_num

/-- C7 witness: ten frames from 101 timesteps give per-frame duration `3/10`. -/
theorem per_frame_duration_witness :
    2 ≤ 10 ∧ 1 ≤ 101 ∧ duration 10 = .ok (3 / (10 : ℚ)) :=
  ⟨by decide, by decide, (per_frame_duration 10 101 (by decide) (by decide)).1⟩

/-- C10: on identical inputs with `num_frames ≥ 2` and `num_tsteps ≥ 1`, the
2D and 3D pipelines compute the same sample plan and the same per-frame
duration `3/num_frames`; their frame filenames differ only in the
dimensionality tag between the fixed prefix and the zero-padded index. -/
theorem pipelines_agree (num_frames num_tsteps : Nat)
    (hF : 2 ≤ num_frames) (hT : 1 ≤ num_tsteps) :
    save_frame_3D num_frames num_tsteps = save_frame_2D num_frames num_tsteps ∧
    GIF_3D_anim num_frames num_tsteps =
      .ok ((List.range num_frames).map (fun f => (fname3D f, 3 / (num_frames : ℚ)))) ∧
    GIF_2D_anim num_frames num_tsteps =
      .ok ((List.range num_frames).map (fun f => (fname2D f, 3 / (num_frames : ℚ)))) ∧
    (∀ f, fname2D f = "tmp-plot/pair_int_" ++ "2D" ++ (pad5 f ++ ".png") ∧
          fname3D f = "tmp-plot/pair_int_" ++ "3D" ++ (pad5 f ++ ".png")) := by
  refine ⟨?_, GIF_3D_anim_eq _ _ hF, GIF_2D_anim_eq _ _ hF, ?_⟩
  · rw [save_frame_2D_eq _ _ hF, save_frame_3D_eq _ _ hF]
  · intro f
    constructor
    · show "tmp-plot/pair_int_2D" ++ pad5 f ++ ".png" = _
      simp [String.append_assoc]
    · show "tmp-plot/pair_int_3D" ++ pad5 f ++ ".png" = _
      simp [String.append_assoc]

/-- C10 witness: both pipelines at 5 frames from 101 timesteps. -/
theorem pipelines_agree_witness :
    2 ≤ 5 ∧ 1 ≤ 101 ∧ save_frame_3D 5 101 = save_frame_2D 5 101 ∧
    save_frame_3D 5 101 = .ok [0, 25, 50, 75, 100] :=
  ⟨by decide, by decide, (pipelines_agree 5 101 (by decide) (by decide)).1, rfl⟩

/-! ### Assembler behaviour on a gapped working directory (C6)

`imageio.imread(filename)` raises the built-in `FileNotFoundError` — the
generic missing-file I/O exception — when `filename` does not exist; `GIF_2D`
and `GIF_3D` wrap no frame-existence check around it. The assembler loop is
modelled against an explicit set `fs` of files present in the working
directory. -/

/-- `imageio.imread` against the set of files present: returns the image
(identified by its filename) or raises the generic `FileNotFoundError`. -/
def imread (fs : List String) (name : String) : Except PyErr String :=
  if name ∈ fs then .ok name else .error (.fileNotFoundError name)

/-- Whether an exception is the generic missing-file I/O error that any
failed file read raises. -/
def PyErr.isGenericFileError : PyErr → Bool
  | .fileNotFoundError _ => true
  | _ => false

/-- The assembler loop of `GIF_2D` (lines 56-58): reads `fname2D f` for each
`f` in order, appending the images read so far; an exception aborts the loop,
leaving the images appended before it and the raised error. -/
def appendLoop (fs : List String) : List Nat → List String → List String × Option PyErr
  | [], acc => (acc.reverse, none)
  | f :: rest, acc =>
    match imread fs (fname2D f) with
    | .ok img => appendLoop fs rest (img :: acc)
    | .error e => (acc.reverse, some e)

/-- The whole assembler run of `GIF_2D` over `range(len(save_frame))`. -/
def buildGIF_2D (fs : List String) (numFrames : Nat) : List String × Option PyErr :=
  appendLoop fs (List.range numFrames) []

theorem appendLoop_ok_front (fs : List String) (l2 : List Nat) :
    ∀ (l1 : List Nat) (acc : List String), (∀ f ∈ l1, fname2D f ∈ fs) →
      appendLoop fs (l1 ++ l2) acc =
        appendLoop fs l2 ((l1.map fname2D).reverse ++ acc)
  | [], acc, _ => by simp
  | f :: t, acc, h => by
    have hf : fname2D f ∈ fs := h f (List.mem_cons_self f t)
    have ih := appendLoop_ok_front fs l2 t (fname2D f :: acc)
      (fun x hx => h x (List.mem_cons_of_mem f hx))
    rw [List.cons_append]
    show (match imread fs (fname2D f) with
      | .ok img => appendLoop fs (t ++ l2) (img :: acc)
      | .error e => (acc.reverse, some e)) = _
    rw [imread, if_pos hf]
    show appendLoop fs (t ++ l2) (fname2D f :: acc) = _
    rw [ih]
    simp

/-- C6 counterexample: delete frame index 2 of 5 from the working directory.
The assembler aborts there with `FileNotFoundError` on the missing frame's
filename — exactly the same error kind that `imread` raises for any missing
file whatsoever, so the failure is the generic missing-file I/O error, not an
error kind distinguished from it. -/
theorem assembler_gap_error_is_generic :
    buildGIF_2D [fname2D 0, fname2D 1, fname2D 3, fname2D 4] 5 =
      ([fname2D 0, fname2D 1], some (.fileNotFoundError (fname2D 2))) ∧
    imread [fname2D 0, fname2D 1, fname2D 3, fname2D 4] "unrelated-file.png" =
      .error (.fileNotFoundError "unrelated-file.png") ∧
    PyErr.isGenericFileError (.fileNotFoundError (fname2D 2)) = true :=
  ⟨rfl, rfl, rfl⟩

/-- C6 amended: when the frame with the least sequence index `j` missing from
the working directory is among the expected indices, the assembler consumes
exactly the frames before `j`, in ascending order without skipping or
reordering, and aborts fatally at `j`; the raised error is the generic
`FileNotFoundError` of the failed read (no dedicated sequence-gap error kind
exists in the code). -/
theorem assembler_gap_aborts (fs : List String) (num_frames j : Nat)
    (hj : j < num_frames) (hmiss : fname2D j ∉ fs)
    (hbefore : ∀ i, i < j → fname2D i ∈ fs) :
    buildGIF_2D fs num_frames =
      ((List.range j).map fname2D, some (.fileNotFoundError (fname2D j))) := by
  have hsplit : List.range num_frames
      = List.range j ++ (List.range (num_frames - j)).map (j + ·) := by
    rw [← List.range_add]
    congr 1
    omega
  have hpos : num_frames - j = (num_frames - j - 1) + 1 := by omega
  rw [buildGIF_2D, hsplit,
    appendLoop_ok_front fs _ _ _ (fun f hf => hbefore f (List.mem_range.1 hf))]
  rw [hpos, List.range_succ_eq_map]
  show appendLoop fs ((j + 0) :: _) _ = _
  rw [Nat.add_zero]
  show (match imread fs (fname2D j) with
    | .ok img => appendLoop fs _ (img :: _)
    | .error e => ((((List.range j).map fname2D).reverse ++ []).reverse, some e)) = _
  rw [imread, if_neg hmiss]
  simp

/-- C6 amended witness: frame 2 of 5 deleted; the three hypotheses hold at
this concrete working directory and the conclusion is the aborted run. -/
theorem assembler_gap_aborts_witness :
    2 < 5 ∧ fname2D 2 ∉ [fname2D 0, fname2D 1, fname2D 3, fname2D 4] ∧
    buildGIF_2D [fname2D 0, fname2D 1, fname2D 3, fname2D 4] 5 =
      ((List.range 2).map fname2D, some (.fileNotFoundError (fname2D 2))) :=
  ⟨by decide, by decide,
   assembler_gap_aborts [fname2D 0, fname2D 1, fname2D 3, fname2D 4] 5 2
     (by decide) (by decide) (by decide)⟩

/-! ### Periodic Image Renderer (`plot_pos_2D`, lines 117-177; `plot_pos_3D`, lines 179-278)

Marker styles are encoded by the matplotlib arguments of the `ax.plot` call:
`". black"` for the black central-box marker, `"r."` for red replicas, `"g-"`
for the green box outline, `"b--"` for blue dashed pair lines. -/

/-- A 2D point. -/
abbrev Pt2 := ℚ × ℚ

/-- A 3D point. -/
abbrev Pt3 := ℚ × ℚ × ℚ

/-- A matplotlib 2D axis: marker calls, polyline calls, final limits. -/
structure Axis2D where
  points : List (Pt2 × String)
  lines : List (List Pt2 × String)
  xlim : Option (ℚ × ℚ)
  ylim : Option (ℚ × ℚ)
deriving Repr

/-- A matplotlib 3D axis: marker calls, polyline calls, final limits. -/
structure Axis3D where
  points : List (Pt3 × String)
  lines : List (List Pt3 × String)
  xlim : Option (ℚ × ℚ)
  ylim : Option (ℚ × ℚ)
  zlim : Option (ℚ × ℚ)
deriving Repr

/-- Numpy array indexing `r[j]`: raises `IndexError` past the end. -/
def getC (r : List ℚ) (j : Nat) : Except PyErr ℚ :=
  match r[j]? with
  | some v => .ok v
  | none => .error .indexError

/-- The eight 2D neighbour-box offsets, in the order of lines 146-153. -/
def offsets2 (L : ℚ) : List Pt2 :=
  [(L, 0), (0, L), (L, L), (-L, 0), (0, -L), (-L, -L), (-L, L), (L, -L)]

/-- The marker calls of one iteration of the particle loop of `plot_pos_2D`
(lines 142-153): the central-box marker (black if `central_box`, red
otherwise) followed by the eight neighbour replicas, always drawn. -/
def particlePts2D (r : List ℚ) (L : ℚ) (central_box : Bool) :
    Except PyErr (List (Pt2 × String)) := do
  let x ← getC r 0
  let y ← getC r 1
  pure (((x, y), if central_box then ". black" else "r.") ::
    (offsets2 L).map (fun o => ((x + o.1, y + o.2), "r.")))

/-- The pure value of `particlePts2D` when the row has enough columns. -/
def imgs2D (r : List ℚ) (L : ℚ) (central_box : Bool) : List (Pt2 × String) :=
  ((r.getD 0 0, r.getD 1 0), if central_box then ". black" else "r.") ::
    (offsets2 L).map (fun o => ((r.getD 0 0 + o.1, r.getD 1 0 + o.2), "r."))

/-- The green square outlining the central box (line 156). -/
def boxLines2D (L : ℚ) : List (List Pt2 × String) :=
  [([(0, 0), (0, L), (L, L), (L, 0), (0, 0)], "g-")]

/-- One pair-line call of `plot_pos_2D` (line 163): a raw segment from
particle `i`'s true position to that position plus the provider-supplied
displacement `rel_pos[j, i]`, not wrapped into the box. -/
def pairSeg2D (pos : List (List ℚ)) (relpos : Nat → Nat → Nat → ℚ) (i j : Nat) :
    Except PyErr (List Pt2 × String) := do
  let x ← getC (pos.getD i []) 0
  let y ← getC (pos.getD i []) 1
  pure ([(x, y), (x + relpos j i 0, y + relpos j i 1)], "b--")

/-- The double loop of lines 160-163: all ordered pairs `(i, j)`, `j ≠ i`
skipped by `continue`, in loop order. -/
def pairLines2D (pos : List (List ℚ)) (relpos : Nat → Nat → Nat → ℚ) :
    Except PyErr (List (List Pt2 × String)) := do
  let segss ← mapE (fun i =>
      mapE (pairSeg2D pos relpos i) ((List.range pos.length).filter (fun j => j != i)))
    (List.range pos.length)
  pure segss.flatten

/-- The pure value of `pairLines2D` when rows have enough columns. -/
def pairList2D (pos : List (List ℚ)) (relpos : Nat → Nat → Nat → ℚ) :
    List (List Pt2 × String) :=
  ((List.range pos.length).map (fun i =>
    ((List.range pos.length).filter (fun j => j != i)).map (fun j =>
      ([((pos.getD i []).getD 0 0, (pos.getD i []).getD 1 0),
        ((pos.getD i []).getD 0 0 + relpos j i 0,
         (pos.getD i []).getD 1 0 + relpos j i 1)], "b--")))).flatten

/-- `plot_pos_2D` (lines 117-177): markers for every particle, the green box
outline when `central_box`, the pair lines when `relative_pos`, and the axis
limits `[-L/2, 3L/2]` set at lines 165-166. -/
def plot_pos_2D (pos : List (List ℚ)) (L : ℚ) (central_box relative_pos : Bool)
    (relpos : Nat → Nat → Nat → ℚ) : Except PyErr Axis2D := do
  let ptss ← mapE (fun r => particlePts2D r L central_box) pos
  let pls ← if relative_pos then pairLines2D pos relpos else pure []
  pure { points := ptss.flatten
         lines := (if central_box then boxLines2D L else []) ++ pls
         xlim := some (-L/2, 3*L/2)
         ylim := some (-L/2, 3*L/2) }

/-- The 26 3D neighbour-box offsets, in the order of lines 209-242. -/
def offsets3 (L : ℚ) : List Pt3 :=
  [(L, 0, 0), (0, L, 0), (0, 0, L),
   (L, L, 0), (0, L, L), (L, 0, L),
   (L, L, L),
   (-L, 0, 0), (0, -L, 0), (0, 0, -L),
   (-L, -L, 0), (-L, 0, -L), (0, -L, -L),
   (-L, -L, -L),
   (-L, L, 0), (L, -L, 0), (-L, 0, L), (L, 0, -L), (0, L, -L), (0, -L, L),
   (L, -L, -L), (-L, L, -L), (-L, -L, L),
   (-L, L, L), (L, -L, L), (L, L, -L)]

/-- The marker calls of one iteration of the particle loop of `plot_pos_3D`
(lines 203-242). The `central_box` branch (line 205) passes only
`pos[i,0], pos[i,1]` to `Axes3D.plot`, which defaults the missing z
coordinate to `0`; the `else` branch (line 207) passes all three. The 26
replicas are drawn only under `outer_boxes`. -/
def particlePts3D (r : List ℚ) (L : ℚ) (central_box outer_boxes : Bool) :
    Except PyErr (List (Pt3 × String)) := do
  let x ← getC r 0
  let y ← getC r 1
  let c ← if central_box then
      pure (((x, y, (0 : ℚ)), ". black"))
    else do
      let z ← getC r 2
      pure (((x, y, z), "r."))
  if outer_boxes then do
    let z ← getC r 2
    pure (c :: (offsets3 L).map (fun o => ((x + o.1, y + o.2.1, z + o.2.2), "r.")))
  else
    pure [c]

/-- The pure value of `particlePts3D` when the row has enough columns. -/
def imgs3D (r : List ℚ) (L : ℚ) (central_box outer_boxes : Bool) :
    List (Pt3 × String) :=
  (if central_box then ((r.getD 0 0, r.getD 1 0, (0 : ℚ)), ". black")
   else ((r.getD 0 0, r.getD 1 0, r.getD 2 0), "r.")) ::
  (if outer_boxes then
    (offsets3 L).map (fun o =>
      ((r.getD 0 0 + o.1, r.getD 1 0 + o.2.1, r.getD 2 0 + o.2.2), "r."))
   else [])

/-- The five green polylines outlining the central cube (lines 252-256). -/
def boxLines3D (L : ℚ) : List (List Pt3 × String) :=
  [([(0, 0, 0), (L, 0, 0), (L, L, 0), (0, L, 0), (0, 0, 0)], "g-"),
   ([(0, 0, 0), (0, 0, L), (L, 0, L), (L, 0, 0)], "g-"),
   ([(0, 0, L), (0, L, L), (0, L, 0)], "g-"),
   ([(0, L, L), (L, L, L), (L, L, 0)], "g-"),
   ([(L, 0, L), (L, L, L)], "g-")]

/-- One pair-line call of `plot_pos_3D` (line 263). -/
def pairSeg3D (pos : List (List ℚ)) (relpos : Nat → Nat → Nat → ℚ) (i j : Nat) :
    Except PyErr (List Pt3 × String) := do
  let x ← getC (pos.getD i []) 0
  let y ← getC (pos.getD i []) 1
  let z ← getC (pos.getD i []) 2
  pure ([(x, y, z),
    (x + relpos j i 0, y + relpos j i 1, z + relpos j i 2)], "b--")

/-- The double loop of lines 260-263. -/
def pairLines3D (pos : List (List ℚ)) (relpos : Nat → Nat → Nat → ℚ) :
    Except PyErr (List (List Pt3 × String)) := do
  let segss ← mapE (fun i =>
      mapE (pairSeg3D pos relpos i) ((List.range pos.length).filter (fun j => j != i)))
    (List.range pos.length)
  pure segss.flatten

/-- The pure value of `pairLines3D` when rows have enough columns. -/
def pairList3D (pos : List (List ℚ)) (relpos : Nat → Nat → Nat → ℚ) :
    List (List Pt3 × String) :=
  ((List.range pos.length).map (fun i =>
    ((List.range pos.length).filter (fun j => j != i)).map (fun j =>
      ([((pos.getD i []).getD 0 0, (pos.getD i []).getD 1 0, (pos.getD i []).getD 2 0),
        ((pos.getD i []).getD 0 0 + relpos j i 0,
         (pos.getD i []).getD 1 0 + relpos j i 1,
         (pos.getD i []).getD 2 0 + relpos j i 2)], "b--")))).flatten

/-- `plot_pos_3D` (lines 179-278). Lines 244-246 set the axis limits to
`(-L, 2L)` inside the `outer_boxes` branch of the particle loop, but lines
248-250 unconditionally reassign `(0, L)` immediately after the loop, so the
final limits are `(0, L)` whatever the flags. -/
def plot_pos_3D (pos : List (List ℚ)) (L : ℚ)
    (central_box relative_pos outer_boxes : Bool)
    (relpos : Nat → Nat → Nat → ℚ) : Except PyErr Axis3D := do
  let ptss ← mapE (fun r => particlePts3D r L central_box outer_boxes) pos
  let pls ← if relative_pos then pairLines3D pos relpos else pure []
  pure { points := ptss.flatten
         lines := (if central_box then boxLines3D L else []) ++ pls
         xlim := some (0, L)
         ylim := some (0, L)
         zlim := some (0, L) }

theorem getC_ok (r : List ℚ) (j : Nat) (h : j < r.length) :
    getC r j = .ok (r.getD j 0) := by
  simp [getC, List.getElem?_eq_getElem h, List.getD_eq_getElem?_getD]

theorem getC_err (r : List ℚ) (j : Nat) (h : r.length ≤ j) :
    getC r j = .error .indexError := by
  simp [getC, List.getElem?_eq_none h]

theorem particlePts2D_ok (r : List ℚ) (L : ℚ) (cb : Bool) (h : 2 ≤ r.length) :
    particlePts2D r L cb = .ok (imgs2D r L cb) := by
  rw [particlePts2D, getC_ok r 0 (by omega), getC_ok r 1 (by omega)]
  rfl

theorem plot_pos_2D_ok (pos : List (List ℚ)) (L : ℚ) (cb : Bool)
    (relp : Nat → Nat → Nat → ℚ) (h : ∀ r ∈ pos, 2 ≤ r.length) :
    plot_pos_2D pos L cb false relp = .ok
      { points := (pos.map (fun r => imgs2D r L cb)).flatten
        lines := if cb then boxLines2D L else []
        xlim := some (-L/2, 3*L/2)
        ylim := some (-L/2, 3*L/2) } := by
  rw [plot_pos_2D, mapE_ok pos (fun r hr => particlePts2D_ok r L cb (h r hr))]
  simp

theorem row_mem (pos : List (List ℚ)) (i : Nat) (hi : i < pos.length) :
    pos.getD i [] ∈ pos := by
  rw [List.getD_eq_getElem?_getD, List.getElem?_eq_getElem hi]
  exact List.getElem_mem hi

theorem sum_map_const_on (l : List Nat) (f : Nat → Nat) (c : Nat)
    (h : ∀ a ∈ l, f a = c) : (l.map f).sum = l.length * c := by
  induction l with
  | nil => simp
  | cons a t ih =>
    rw [List.map_cons, List.sum_cons, h a (List.mem_cons_self a t),
      ih (fun x hx => h x (List.mem_cons_of_mem a hx)), List.length_cons]
    ring

theorem filter_ne_length (n i : Nat) (hi : i < n) :
    ((List.range n).filter (fun j => j != i)).length = n - 1 := by
  rw [← (List.nodup_range n).erase_eq_filter i]
  simpa using List.length_erase_of_mem (List.mem_range.2 hi)

theorem pairSeg2D_ok (pos : List (List ℚ)) (relp : Nat → Nat → Nat → ℚ) (i j : Nat)
    (h : 2 ≤ (pos.getD i []).length) :
    pairSeg2D pos relp i j = .ok
      ([((pos.getD i []).getD 0 0, (pos.getD i []).getD 1 0),
        ((pos.getD i []).getD 0 0 + relp j i 0,
         (pos.getD i []).getD 1 0 + relp j i 1)], "b--") := by
  rw [pairSeg2D, getC_ok _ 0 (by omega), getC_ok _ 1 (by omega)]
  rfl

theorem pairLines2D_ok (pos : List (List ℚ)) (relp : Nat → Nat → Nat → ℚ)
    (h : ∀ r ∈ pos, 2 ≤ r.length) :
    pairLines2D pos relp = .ok (pairList2D pos relp) := by
  rw [pairLines2D,
    mapE_ok (List.range pos.length) (fun i hi =>
      mapE_ok _ (fun j _ =>
        pairSeg2D_ok pos relp i j
          (h _ (row_mem pos i (List.mem_range.1 hi)))))]
  rfl

theorem pairList2D_length (pos : List (List ℚ)) (relp : Nat → Nat → Nat → ℚ) :
    (pairList2D pos relp).length = pos.length * (pos.length - 1) := by
  rw [pairList2D, List.length_flatten, List.map_map]
  rw [sum_map_const_on _ _ (pos.length - 1) (fun i hi => by
    simp only [Function.comp_apply, List.length_map]
    exact filter_ne_length pos.length i (List.mem_range.1 hi))]
  rw [List.length_range]

theorem particlePts3D_ok (r : List ℚ) (L : ℚ) (cb ob : Bool) (h : 3 ≤ r.length) :
    particlePts3D r L cb ob = .ok (imgs3D r L cb ob) := by
  rw [particlePts3D, getC_ok r 0 (by omega), getC_ok r 1 (by omega),
    getC_ok r 2 (by omega)]
  cases cb <;> cases ob <;> rfl

theorem particlePts3D_default_ok (r : List ℚ) (L : ℚ) (h : 2 ≤ r.length) :
    particlePts3D r L true false = .ok (imgs3D r L true false) := by
  rw [particlePts3D, getC_ok r 0 (by omega), getC_ok r 1 (by omega)]
  rfl

theorem pairSeg3D_ok (pos : List (List ℚ)) (relp : Nat → Nat → Nat → ℚ) (i j : Nat)
    (h : 3 ≤ (pos.getD i []).length) :
    pairSeg3D pos relp i j = .ok
      ([((pos.getD i []).getD 0 0, (pos.getD i []).getD 1 0, (pos.getD i []).getD 2 0),
        ((pos.getD i []).getD 0 0 + relp j i 0,
         (pos.getD i []).getD 1 0 + relp j i 1,
         (pos.getD i []).getD 2 0 + relp j i 2)], "b--") := by
  rw [pairSeg3D, getC_ok _ 0 (by omega), getC_ok _ 1 (by omega), getC_ok _ 2 (by omega)]
  rfl

theorem pairLines3D_ok (pos : List (List ℚ)) (relp : Nat → Nat → Nat → ℚ)
    (h : ∀ r ∈ pos, 3 ≤ r.length) :
    pairLines3D pos relp = .ok (pairList3D pos relp) := by
  rw [pairLines3D,
    mapE_ok (List.range pos.length) (fun i hi =>
      mapE_ok _ (fun j _ =>
        pairSeg3D_ok pos relp i j
          (h _ (row_mem pos i (List.mem_range.1 hi)))))]
  rfl

theorem pairList3D_length (pos : List (List ℚ)) (relp : Nat → Nat → Nat → ℚ) :
    (pairList3D pos relp).length = pos.length * (pos.length - 1) := by
  rw [pairList3D, List.length_flatten, List.map_map]
  rw [sum_map_const_on _ _ (pos.length - 1) (fun i hi => by
    simp only [Function.comp_apply, List.length_map]
    exact filter_ne_length pos.length i (List.mem_range.1 hi))]
  rw [List.length_range]

/-- C4 counterexample: one particle at the origin rendered by `plot_pos_2D`
with `central_box = True` yields 9 marker calls, not 1 — the eight
neighbour-replica calls at lines 146-153 are unconditional, and the
`central_box` flag only switches the central marker's style and the box
outline. -/
theorem central_box_true_draws_nine :
    (plot_pos_2D [[0, 0]] 1 true false (fun _ _ _ => 0)).map
      (fun ax => ax.points.length) = .ok 9 ∧ (9 : Nat) ≠ 1 :=
  ⟨rfl, by decide⟩

/-- C4 amended: for every particle set whose rows have at least two columns,
`plot_pos_2D` with `relative_pos = False` draws exactly 9 marker calls per
particle under either value of `central_box`: the true position first (black
when `central_box`, red otherwise) and then the 8 neighbour offsets of
`{-L,0,L}²`, always in red; `central_box` additionally draws the green square
box outline. -/
theorem renderer_2D_always_nine_images (pos : List (List ℚ)) (L : ℚ)
    (central_box : Bool) (relp : Nat → Nat → Nat → ℚ)
    (h : ∀ r ∈ pos, 2 ≤ r.length) :
    plot_pos_2D pos L central_box false relp = .ok
      { points := (pos.map (fun r => imgs2D r L central_box)).flatten
        lines := if central_box then boxLines2D L else []
        xlim := some (-L/2, 3*L/2)
        ylim := some (-L/2, 3*L/2) } ∧
    (∀ r, (imgs2D r L central_box).length = 9) ∧
    (∀ r, (imgs2D r L central_box).head? = some ((r.getD 0 0, r.getD 1 0),
      if central_box then ". black" else "r.")) ∧
    (∀ r, (imgs2D r L central_box).tail = (offsets2 L).map
      (fun o => ((r.getD 0 0 + o.1, r.getD 1 0 + o.2), "r."))) :=
  ⟨plot_pos_2D_ok pos L central_box relp h,
   fun _ => rfl, fun _ => rfl, fun _ => rfl⟩

/-- C4 amended witness: application at one particle at the origin. -/
theorem renderer_2D_always_nine_images_witness :
    (∀ r ∈ [[(0 : ℚ), 0]], 2 ≤ r.length) ∧ (imgs2D [(0 : ℚ), 0] 1 true).length = 9 :=
  ⟨by decide,
   (renderer_2D_always_nine_images [[(0 : ℚ), 0]] 1 true (fun _ _ _ => 0)
     (by decide)).2.1 [(0 : ℚ), 0]⟩

/-- C3: evaluation of `plot_pos_3D` at the failing input — one particle at
`(0, 0, 1)`, `L = 1`, `central_box = True`, `outer_boxes = True`. 27 marker
calls are made as the claim says, but on exit the axis limits are `(0, L)`,
not `(-L, 2L)`: the widened limits of lines 244-246 are dead stores,
unconditionally overwritten by lines 248-250. Moreover the zero-offset image
is drawn at `(0, 0, 0)`, not at the true position `(0, 0, 1)`, because the
central plot call at line 205 omits the z coordinate. -/
theorem outer_boxes_limits_overwritten :
    (plot_pos_3D [[0, 0, 1]] 1 true false true (fun _ _ _ => 0)).map
        (fun ax => (ax.points.length, ax.xlim, ax.ylim, ax.zlim, ax.points.head?))
      = .ok (27, some ((0 : ℚ), 1), some ((0 : ℚ), 1), some ((0 : ℚ), 1),
          some (((0 : ℚ), (0 : ℚ), (0 : ℚ)), ". black")) ∧
    (plot_pos_3D [[0, 0, 1]] 1 true false false (fun _ _ _ => 0)).map
        (fun ax => (ax.points.length, ax.xlim))
      = .ok (1, some ((0 : ℚ), 1)) ∧
    (some ((0 : ℚ), (1 : ℚ)) : Option (ℚ × ℚ)) ≠ some (-1, 2) ∧
    (((0 : ℚ), (0 : ℚ), (0 : ℚ)) : Pt3) ≠ ((0 : ℚ), (0 : ℚ), (1 : ℚ)) := by
  refine ⟨rfl, rfl, ?_, ?_⟩
  · simp
  · simp [Prod.ext_iff]

/-- C8 counterexample: no dimensionality check exists. A 3-column positions
array passed to the 2D renderer is rendered without any exception (the third
column is silently ignored), and a 2-column array passed to the 3D renderer
with default flags is also rendered without exception. -/
theorem shape_mismatch_not_raised :
    (plot_pos_2D [[0, 0, 0]] 1 true false (fun _ _ _ => 0)).isOk = true ∧
    (plot_pos_3D [[0, 0]] 1 true false false (fun _ _ _ => 0)).isOk = true :=
  ⟨rfl, rfl⟩

/-- C8 amended: the renderers perform no dimensionality validation.
`plot_pos_2D` succeeds on any positions whose rows have at least 2 columns
(so also on 3-column data, using only the first two columns); `plot_pos_3D`
with its default flags likewise succeeds on 2-column data; an `IndexError` is
raised only when an executed code path actually accesses a missing third
column, e.g. `outer_boxes = True` on rows of exactly 2 columns. -/
theorem renderer_no_shape_check :
    (∀ pos (L : ℚ) relp, (∀ r ∈ pos, 2 ≤ r.length) →
      (plot_pos_2D pos L true false relp).isOk = true) ∧
    (∀ pos (L : ℚ) relp, (∀ r ∈ pos, 2 ≤ r.length) →
      (plot_pos_3D pos L true false false relp).isOk = true) ∧
    (∀ (r : List ℚ) rest (L : ℚ) relp, r.length = 2 →
      plot_pos_3D (r :: rest) L true false true relp = .error .indexError) := by
  refine ⟨?_, ?_, ?_⟩
  · intro pos L relp h
    rw [plot_pos_2D_ok pos L true relp h]
    rfl
  · intro pos L relp h
    rw [plot_pos_3D,
      mapE_ok pos (fun r hr => particlePts3D_default_ok r L (h r hr))]
    rfl
  · intro r rest L relp h2
    have hp : particlePts3D r L true true = .error .indexError := by
      rw [particlePts3D, getC_ok r 0 (by omega), getC_ok r 1 (by omega),
        getC_err r 2 (by omega)]
      rfl
    have hm : mapE (fun r => particlePts3D r L true true) (r :: rest)
        = .error .indexError :=
      mapE_error_head (f := fun r => particlePts3D r L true true) hp
    rw [plot_pos_3D, hm]
    rfl

/-- C8 amended witness: a 3-column particle through the 2D renderer and a
2-column particle through the 3D renderer with `outer_boxes`. -/
theorem renderer_no_shape_check_witness :
    (∀ r ∈ [[(0 : ℚ), 0, 5]], 2 ≤ r.length) ∧
    (plot_pos_2D [[(0 : ℚ), 0, 5]] 1 true false (fun _ _ _ => 0)).isOk = true ∧
    ([(0 : ℚ), 0] : List ℚ).length = 2 ∧
    plot_pos_3D [[(0 : ℚ), 0]] 1 true false true (fun _ _ _ => 0)
      = .error .indexError :=
  ⟨by decide,
   renderer_no_shape_check.1 [[(0 : ℚ), 0, 5]] 1 (fun _ _ _ => 0) (by decide),
   by decide,
   renderer_no_shape_check.2.2 [(0 : ℚ), 0] [] 1 (fun _ _ _ => 0) (by decide)⟩

/-- C9: with `relative_pos` set, each renderer draws, for every ordered pair
`(i, j)` with `i ≠ j` — `N·(N-1)` segments in all — a raw dashed segment from
particle `i`'s true position to that position plus the provider-supplied
minimum-image displacement `rel_pos[j, i]` of `j` relative to `i`, with no
wrapping of the endpoint into the central box. -/
theorem pair_lines_minimum_image :
    (∀ pos (L : ℚ) relp, (∀ r ∈ pos, 2 ≤ r.length) →
      (plot_pos_2D pos L false true relp).map (fun ax => ax.lines)
        = .ok (pairList2D pos relp) ∧
      (pairList2D pos relp).length = pos.length * (pos.length - 1)) ∧
    (∀ pos (L : ℚ) relp, (∀ r ∈ pos, 3 ≤ r.length) →
      (plot_pos_3D pos L false true false relp).map (fun ax => ax.lines)
        = .ok (pairList3D pos relp) ∧
      (pairList3D pos relp).length = pos.length * (pos.length - 1)) := by
  constructor
  · intro pos L relp h
    refine ⟨?_, pairList2D_length pos relp⟩
    rw [plot_pos_2D,
      mapE_ok pos (fun r hr => particlePts2D_ok r L false (h r hr)),
      pairLines2D_ok pos relp h]
    rfl
  · intro pos L relp h
    refine ⟨?_, pairList3D_length pos relp⟩
    rw [plot_pos_3D,
      mapE_ok pos (fun r hr => particlePts3D_ok r L false false (h r hr)),
      pairLines3D_ok pos relp h]
    rfl

/-- C9 witness: two 2D particles and two 3D particles. -/
theorem pair_lines_minimum_image_witness :
    (∀ r ∈ [[(0 : ℚ), 0], [1, 0]], 2 ≤ r.length) ∧
    (plot_pos_2D [[(0 : ℚ), 0], [1, 0]] 1 false true (fun _ _ _ => 0)).map
      (fun ax => ax.lines) = .ok (pairList2D [[(0 : ℚ), 0], [1, 0]] (fun _ _ _ => 0)) ∧
    (pairList2D [[(0 : ℚ), 0], [1, 0]] (fun _ _ _ => 0)).length = 2 * (2 - 1) ∧
    (∀ r ∈ [[(0 : ℚ), 0, 0], [1, 0, 0]], 3 ≤ r.length) ∧
    (pairList3D [[(0 : ℚ), 0, 0], [1, 0, 0]] (fun _ _ _ => 0)).length = 2 * (2 - 1) :=
  ⟨by decide,
   (pair_lines_minimum_image.1 [[(0 : ℚ), 0], [1, 0]] 1 (fun _ _ _ => 0) (by decide)).1,
   (pair_lines_minimum_image.1 [[(0 : ℚ), 0], [1, 0]] 1 (fun _ _ _ => 0) (by decide)).2,
   by decide,
   (pair_lines_minimum_image.2 [[(0 : ℚ), 0, 0], [1, 0, 0]] 1 (fun _ _ _ => 0)
     (by decide)).2⟩

end MDArgon
